import Mathlib

/-!
# Verification of the sleep-formula domain engine

Shallow embedding of the pure calculation engine of the `sleep-formula`
repository (`useSleepState.ts` and the app component): time utilities,
sleep-cycle calculator, caffeine decay model, sleep-debt aggregator and
the stats/tip engine, together with theorems settling the specification
claims.

Modelling conventions:
* JS numbers are modelled as `ℚ` wherever the code only performs field
  arithmetic, comparisons and rounding, and as `ℝ` where the code uses
  transcendental functions (`Math.pow` with fractional exponent,
  `Math.sin`, `Math.cos`, `Math.atan2`).
* A JS value that may be `NaN` or `undefined` is modelled as an
  `Option`: `none` stands for a non-numeric value (`NaN`/`undefined`).
* `Math.round x` is `⌊x + 1/2⌋` (JS rounds half toward +∞); the JS `%`
  operator on integer-valued operands is truncated remainder `Int.tmod`.
* Calendar dates (`YYYY-MM-DD` strings in the code) are modelled as
  integer day indices (days since 1970-01-01, which was a Thursday);
  rendering a date and comparing the strings for equality/order is
  equivalent to comparing day indices, since ISO date strings compare
  lexicographically in chronological order.
* Timestamps are milliseconds since the epoch (`ℚ`); local time is
  modelled with a whole-hour UTC offset folded into the timestamps, so
  that the start of a local clock-hour is a multiple of 3 600 000 ms.
* The implicit `new Date()` wall-clock reads inside
  `calculateSleepDebt`, the stats memo and `generateSleepTips` become
  explicit `today`/`now` parameters of the embedding.
-/

namespace SleepFormula

/-! ## JS primitives -/

/-- JS `Math.round`: round half toward positive infinity. -/
def jsRound (q : ℚ) : ℤ := ⌊q + 1/2⌋

/-- `Math.round (q * 100) / 100` — round to 2 decimal places. -/
def round2 (q : ℚ) : ℚ := (jsRound (q * 100) : ℚ) / 100

/-- `Math.round (q * 10) / 10` — round to 1 decimal place. -/
def round1 (q : ℚ) : ℚ := (jsRound (q * 10) : ℚ) / 10

/-- `Math.round` on a real argument. -/
noncomputable def jsRoundR (x : ℝ) : ℤ := ⌊x + 1/2⌋

/-- Round a real to 1 decimal place, as `Math.round (x * 10) / 10`. -/
noncomputable def round1R (x : ℝ) : ℝ := (jsRoundR (x * 10) : ℝ) / 10

/-- JS `String.prototype.split(sep)` on character lists: split at every
occurrence of `sep`, keeping empty components (`"a::b"` gives
`["a", "", "b"]`, `""` gives `[""]`). -/
def splitCh (sep : Char) : List Char → List (List Char)
  | [] => [[]]
  | c :: cs =>
    if c = sep then [] :: splitCh sep cs
    else
      match splitCh sep cs with
      | [] => [[c]]
      | h :: t => (c :: h) :: t

/-- JS `Number(s)`, modelled for the string forms that reach it here
(components of clock-time strings): the empty string converts to `0`,
a string of decimal digits to its value, and anything else to `NaN`
(`none`). -/
def jsNumberL (l : List Char) : Option ℕ :=
  if l.isEmpty then some 0
  else if l.all (·.isDigit) then
    some (l.foldl (fun a c => 10 * a + (c.toNat - 48)) 0)
  else none

/-- JS `String(n)` for an integer-valued number. -/
def intToString (n : ℤ) : String :=
  if n < 0 then "-" ++ Nat.repr n.natAbs else Nat.repr n.toNat

/-- JS `s.padStart(2, '0')`. -/
def padStart2 (s : String) : String :=
  if s.length ≥ 2 then s
  else if s.length = 1 then "0" ++ s
  else "00" ++ s

/-- Render a natural number as a 2-digit-padded decimal string. -/
def pad2 (n : ℕ) : String := padStart2 (Nat.repr n)

/-! ## Time utilities (source: `useSleepState.ts`) -/

/-- `parseTime`: `const [h, m] = timeStr.split(':').map(Number)`.
The two components are `Number` of the first two `':'`-separated
pieces; a missing piece is `undefined` and a non-numeric piece is
`NaN`, both modelled as `none`. -/
def parseTime (s : String) : Option ℕ × Option ℕ :=
  let comps := (splitCh ':' s.data).map jsNumberL
  (comps.getD 0 none, comps.getD 1 none)

/-- `timeToMinutes`: `hours * 60 + minutes`; non-numeric components
propagate (`NaN` arithmetic). -/
def timeToMinutes (s : String) : Option ℕ :=
  match parseTime s with
  | (some h, some m) => some (h * 60 + m)
  | _ => none

/-- `padTime(hours, minutes)`: normalizes the hour with
`((hours % 24) + 24) % 24` and renders both fields 2-padded. -/
def padTime (hours minutes : ℤ) : String :=
  let h := ((hours.tmod 24) + 24).tmod 24
  padStart2 (intToString h) ++ ":" ++ padStart2 (intToString minutes)

/-- `addMinutesToTime`: add `minutesToAdd` to the clock time, normalize
into `[0, 1440)` with `((t % 1440) + 1440) % 1440`, and re-render.
A non-numeric input time yields `"NaN:NaN"` (the rendering JS produces
when `NaN` flows into `padTime`). -/
def addMinutesToTime (s : String) (minutesToAdd : ℤ) : String :=
  match timeToMinutes s with
  | none => "NaN:NaN"
  | some tm =>
    let totalMinutes : ℤ := (tm : ℤ) + minutesToAdd
    let norm : ℤ := ((totalMinutes.tmod 1440) + 1440).tmod 1440
    let resultHours : ℤ := ⌊(norm : ℚ) / 60⌋
    let resultMinutes : ℤ := norm.tmod 60
    padTime resultHours resultMinutes

/-- `subtractMinutesFromTime` delegates to `addMinutesToTime`. -/
def subtractMinutesFromTime (s : String) (minutesToSubtract : ℤ) : String :=
  addMinutesToTime s (-minutesToSubtract)

/-- `calculateHoursSlept`: minutes from bedtime to wake time, adding 24h
when the wake time is numerically ≤ the bedtime (overnight), converted
to hours and rounded to 2 decimals.  Non-numeric inputs give `NaN`. -/
def calculateHoursSlept (bedtime wakeTime : String) : Option ℚ :=
  match timeToMinutes bedtime, timeToMinutes wakeTime with
  | some bedMinutes, some wake0 =>
    let wakeMinutes : ℤ :=
      if (wake0 : ℤ) ≤ (bedMinutes : ℤ) then (wake0 : ℤ) + 24 * 60 else (wake0 : ℤ)
    let diffMinutes : ℤ := wakeMinutes - (bedMinutes : ℤ)
    some (round2 ((diffMinutes : ℚ) / 60))
  | _, _ => none

/-! ## Sleep-cycle calculator -/

inductive Quality | poor | fair | good | great
deriving DecidableEq

/-- `qualityFromCycles`. -/
def qualityFromCycles (cycles : ℕ) : Quality :=
  if cycles ≤ 2 then .poor
  else if cycles = 3 then .fair
  else if cycles = 4 then .good
  else .great

structure OptimalTime where
  time : String
  cycles : ℕ
  hours : ℚ
  quality : Quality
deriving DecidableEq

inductive CalcMode | bedtime | wakeup
deriving DecidableEq

def SLEEP_CYCLE_MINUTES : ℕ := 90
def FALL_ASLEEP_MINUTES : ℕ := 15

/-- `calculateOptimalTimes`.  In `bedtime` mode the loop runs
`cycles = 6, 5, …, 1` (modelled as the `k`-th pushed element having
`cycles = 6 - k`); in `wakeup` mode it runs `cycles = 1, …, 6`. -/
def calculateOptimalTimes (targetTime : String) (mode : CalcMode) : List OptimalTime :=
  match mode with
  | .bedtime =>
    (List.range 6).map (fun k =>
      let cycles := 6 - k
      let sleepMinutes := cycles * SLEEP_CYCLE_MINUTES
      let totalMinutes := sleepMinutes + FALL_ASLEEP_MINUTES
      { time := subtractMinutesFromTime targetTime (totalMinutes : ℤ)
        cycles := cycles
        hours := round2 ((sleepMinutes : ℚ) / 60)
        quality := qualityFromCycles cycles })
  | .wakeup =>
    (List.range 6).map (fun k =>
      let cycles := k + 1
      let sleepMinutes := cycles * SLEEP_CYCLE_MINUTES
      let totalMinutes := sleepMinutes + FALL_ASLEEP_MINUTES
      { time := addMinutesToTime targetTime (totalMinutes : ℤ)
        cycles := cycles
        hours := round2 ((sleepMinutes : ℚ) / 60)
        quality := qualityFromCycles cycles })

/-! ## Caffeine decay model -/

inductive CaffeineType | coffee | espresso | tea | energy | other
deriving DecidableEq

structure CaffeineEntry where
  id : String
  timestamp : ℚ
  amountMg : ℚ
  type : CaffeineType
  label : String
deriving DecidableEq

def CAFFEINE_HALF_LIFE_HOURS : ℚ := 5

/-- `calculateCaffeineLevel(entries, atTime)`: loop over the entries,
skipping entries in the future (`elapsedMs < 0`), accumulating
`amountMg * 0.5 ^ (elapsedHours / 5)`, then round to 1 decimal.
The query instant is the explicit `atMs` parameter (the code's
`atTime` argument, which defaults to `new Date()`). -/
noncomputable def calculateCaffeineLevel (entries : List CaffeineEntry) (atMs : ℚ) : ℝ :=
  let total : ℝ := entries.foldl (fun total entry =>
    let elapsedMs := atMs - entry.timestamp
    if elapsedMs < 0 then total
    else
      let elapsedHours := elapsedMs / (1000 * 60 * 60)
      total + (entry.amountMg : ℝ) *
        ((1/2 : ℝ) ^ (((elapsedHours / CAFFEINE_HALF_LIFE_HOURS : ℚ) : ℝ)))) 0
  round1R total

structure TimelinePoint where
  hour : ℚ
  level : ℝ

/-- `startTime.setMinutes(0, 0, 0)`: the start of the clock-hour
containing instant `t` (whole-hour UTC offset assumed, so clock-hours
start at multiples of 3 600 000 ms). -/
def hourStartMs (t : ℚ) : ℚ := 3600000 * (⌊t / 3600000⌋ : ℚ)

/-- `calculateCaffeineTimeline`: empty input gives an empty timeline;
otherwise 49 samples, 30 minutes apart, starting at the start of the
clock-hour of the earliest entry.  `Math.min(...)` over the non-empty
timestamp list is a fold of `min`. -/
noncomputable def calculateCaffeineTimeline (entries : List CaffeineEntry) :
    List TimelinePoint :=
  match entries with
  | [] => []
  | e :: es =>
    let earliestTs := es.foldl (fun acc x => min acc x.timestamp) e.timestamp
    let startMs := hourStartMs earliestTs
    (List.range 49).map (fun i =>
      { hour := round2 ((i : ℚ) * (1/2))
        level := round1R (calculateCaffeineLevel entries
          (startMs + (i : ℚ) * 30 * 60 * 1000)) })

/-! ## Sleep-debt aggregator -/

structure SleepRecord where
  id : String
  date : ℤ
  bedtime : String
  wakeTime : String
  hoursSlept : ℚ
deriving DecidableEq

def DAY_LABELS : List String := ["일", "월", "화", "수", "목", "금", "토"]

/-- `DAY_LABELS[date.getDay()]`: day 0 (1970-01-01) was a Thursday. -/
def dayLabelOf (day : ℤ) : String := DAY_LABELS.getD (((day + 4) % 7).toNat) ""

structure DailyDebt where
  day : ℤ
  dayLabel : String
  hours : ℚ
  debt : ℚ
deriving DecidableEq

structure SleepDebtResult where
  daily : List DailyDebt
  totalDebt : ℚ
  avgHours : ℚ
deriving DecidableEq

/-- `calculateSleepDebt(records, recommendedHours)`.  The code reads
`today = new Date()`; here `today` is the explicit day index of the
current date.  The loop `for (i = 6; i >= 0; i--)` pushes day
`today - i`, so the `k`-th element covers day `today - 6 + k`. -/
def calculateSleepDebt (records : List SleepRecord) (recommendedHours : ℚ)
    (today : ℤ) : SleepDebtResult :=
  let last7Days := (List.range 7).map (fun k =>
    let dateStr : ℤ := today - 6 + (k : ℤ)
    let record := records.find? (fun r => r.date = dateStr)
    let hours := match record with
      | some r => r.hoursSlept
      | none => 0
    let debt := max 0 (recommendedHours - hours)
    { day := dateStr, dayLabel := dayLabelOf dateStr, hours := hours, debt := debt })
  let totalDebt := last7Days.foldl (fun sum d => sum + d.debt) 0
  let daysWithRecords := last7Days.filter (fun d => 0 < d.hours)
  let avgHours :=
    if 0 < daysWithRecords.length then
      round2 ((daysWithRecords.foldl (fun sum d => sum + d.hours) 0) /
        (daysWithRecords.length : ℚ))
    else 0
  { daily := last7Days, totalDebt := round2 totalDebt, avgHours := avgHours }

/-! ## Stats & tip engine -/

structure SleepStats where
  totalRecords : ℕ
  avgHoursThisWeek : ℚ
  totalDebtHours : ℚ
  longestSleep : ℚ
  shortestSleep : ℚ
  avgBedtime : String
  avgWakeTime : String
  currentCaffeineMg : ℚ
deriving DecidableEq

structure SleepTip where
  icon : String
  title : String
  description : String
deriving DecidableEq

/-- The weekly average of the `stats` memo in `useSleepState`:
`sevenDaysAgo = now - 7 days`, then average `hoursSlept` over the
records with `sevenDaysAgoISO <= r.date <= today` (ISO-string
comparison, i.e. chronological comparison of day indices). -/
def statsAvgHoursThisWeek (sleepRecords : List SleepRecord) (today : ℤ) : ℚ :=
  let sevenDaysAgo := today - 7
  let weekRecords := sleepRecords.filter (fun r =>
    sevenDaysAgo ≤ r.date && r.date ≤ today)
  if 0 < weekRecords.length then
    round2 ((weekRecords.foldl (fun sum r => sum + r.hoursSlept) 0) /
      (weekRecords.length : ℚ))
  else 0

/-- JS `q.toFixed(1)` (round to one decimal, ties toward +∞, rendered
with one fractional digit); callers only format non-negative values. -/
def jsToFixed1 (q : ℚ) : String :=
  let n := jsRound (q * 10)
  if n < 0 then "-" ++ Nat.repr (n.natAbs / 10) ++ "." ++ Nat.repr (n.natAbs % 10)
  else Nat.repr (n.toNat / 10) ++ "." ++ Nat.repr (n.toNat % 10)

def msPerHour : ℚ := 3600000
def msPerDay : ℚ := 86400000

/-- `new Date(ts).getHours()` under the whole-hour-offset convention. -/
def jsGetHours (ts : ℚ) : ℤ := ⌊ts / msPerHour⌋ % 24

/-- `entryDate.toDateString() === now.toDateString()`: same local
calendar day. -/
def sameLocalDay (a b : ℚ) : Bool := ⌊a / msPerDay⌋ = ⌊b / msPerDay⌋

/-- The evening-caffeine filter of `generateSleepTips`: entries of the
same day as `now` taken at local hour ≥ 16. -/
def eveningEntries (entries : List CaffeineEntry) (now : ℚ) : List CaffeineEntry :=
  entries.filter (fun e => sameLocalDay e.timestamp now && 16 ≤ jsGetHours e.timestamp)

def highCaffeineTip (stats : SleepStats) : SleepTip :=
  { icon := "ri-cup-line", title := "카페인 주의"
    description := "현재 체내 카페인이 " ++ intToString (jsRound stats.currentCaffeineMg) ++
      "mg으로 높습니다. 취침 6시간 전부터는 카페인 섭취를 피하세요." }

def moderateCaffeineTip (stats : SleepStats) : SleepTip :=
  { icon := "ri-cup-line", title := "카페인 잔여량 확인"
    description := "체내 카페인이 약 " ++ intToString (jsRound stats.currentCaffeineMg) ++
      "mg 남아있습니다. 취침 전까지 충분히 분해될 수 있도록 추가 섭취를 자제하세요." }

def severeDebtTip (stats : SleepStats) : SleepTip :=
  { icon := "ri-error-warning-line", title := "심각한 수면 부족"
    description := "이번 주 수면 부채가 " ++ intToString (jsRound stats.totalDebtHours) ++
      "시간입니다. 주말에 한번에 몰아자는 것보다 매일 30분씩 일찍 잠드는 것이 효과적입니다." }

def moderateDebtTip (stats : SleepStats) : SleepTip :=
  { icon := "ri-alarm-warning-line", title := "수면 부족 누적"
    description := "이번 주 수면 부채가 " ++ intToString (jsRound stats.totalDebtHours) ++
      "시간입니다. 오늘 30분 일찍 잠자리에 들어보세요." }

def shortSleepTip (stats : SleepStats) : SleepTip :=
  { icon := "ri-moon-foggy-line", title := "수면 시간 부족"
    description := "이번 주 평균 수면 시간이 " ++ jsToFixed1 stats.avgHoursThisWeek ++
      "시간입니다. 성인 기준 최소 7시간의 수면이 권장됩니다." }

def regularBedtimeTip : SleepTip :=
  { icon := "ri-time-line", title := "규칙적 취침 시간"
    description := "매일 같은 시간에 잠드는 습관이 수면의 질을 크게 향상시킵니다. 주말에도 30분 이내의 차이를 유지하세요." }

def lateCaffeineTip : SleepTip :=
  { icon := "ri-forbid-line", title := "늦은 카페인 섭취"
    description := "오후 4시 이후의 카페인 섭취는 수면의 질을 떨어뜨릴 수 있습니다. 디카페인이나 허브티로 대체해 보세요." }

def blueLightTip : SleepTip :=
  { icon := "ri-smartphone-line", title := "블루라이트 차단"
    description := "취침 1시간 전부터 스마트폰, 태블릿 등 전자기기 사용을 줄이세요. 블루라이트가 멜라토닌 분비를 억제합니다." }

def temperatureTip : SleepTip :=
  { icon := "ri-temp-cold-line", title := "적절한 실내 온도"
    description := "수면에 이상적인 실내 온도는 18-20도입니다. 너무 덥거나 추운 환경은 깊은 수면을 방해합니다." }

def variabilityTip (stats : SleepStats) : SleepTip :=
  { icon := "ri-bar-chart-line", title := "수면 편차 큼"
    description := "가장 긴 수면(" ++ jsToFixed1 stats.longestSleep ++
      "시간)과 짧은 수면(" ++ jsToFixed1 stats.shortestSleep ++
      "시간)의 차이가 큽니다. 일정한 수면 패턴이 건강에 좋습니다." }

def exerciseTip : SleepTip :=
  { icon := "ri-run-line", title := "규칙적 운동"
    description := "규칙적인 운동은 수면의 질을 높여줍니다. 다만 취침 2-3시간 전에는 격한 운동을 피하세요." }

def mealTip : SleepTip :=
  { icon := "ri-restaurant-line", title := "취침 전 식사 주의"
    description := "취침 2-3시간 전에는 과식을 피하세요. 가벼운 간식은 괜찮지만, 무거운 식사는 수면을 방해합니다." }

/-- The tip cascade of `generateSleepTips`, in push order: sequential
`tips.push(...)` calls are modelled as list concatenation. -/
def tipCascade (stats : SleepStats) (entries : List CaffeineEntry) (now : ℚ) :
    List SleepTip :=
  (if 200 < stats.currentCaffeineMg then [highCaffeineTip stats]
   else if 100 < stats.currentCaffeineMg then [moderateCaffeineTip stats]
   else []) ++
  (if 10 < stats.totalDebtHours then [severeDebtTip stats]
   else if 5 < stats.totalDebtHours then [moderateDebtTip stats]
   else []) ++
  (if 0 < stats.avgHoursThisWeek ∧ stats.avgHoursThisWeek < 6 then [shortSleepTip stats]
   else []) ++
  (if 3 ≤ stats.totalRecords then [regularBedtimeTip] else []) ++
  (if eveningEntries entries now ≠ [] then [lateCaffeineTip] else []) ++
  [blueLightTip, temperatureTip] ++
  (if 3 < stats.longestSleep - stats.shortestSleep ∧ 0 < stats.shortestSleep then
    [variabilityTip stats]
   else []) ++
  [exerciseTip, mealTip]

/-- `generateSleepTips`: the cascade truncated to the first 8 tips
(`tips.slice(0, 8)`).  The code reads `now = new Date()` for the
evening-caffeine rule; `now` is explicit here. -/
def generateSleepTips (stats : SleepStats) (entries : List CaffeineEntry) (now : ℚ) :
    List SleepTip :=
  (tipCascade stats entries now).take 8

/-! ## Record creation (hook callbacks) -/

/-- `addSleepRecord`: appends a record whose `hoursSlept` is computed
from the submitted bed/wake times.  The UI submits `HH:mm` strings from
time inputs; for a (non-occurring) invalid string the code would store
`NaN`, which `ℚ` cannot represent — rendered as `0` via `getD`, a case
none of the theorems below exercises. -/
def addSleepRecord (prev : List SleepRecord) (id : String) (date : ℤ)
    (bedtime wakeTime : String) : List SleepRecord :=
  prev ++ [{ id := id, date := date, bedtime := bedtime, wakeTime := wakeTime,
             hoursSlept := (calculateHoursSlept bedtime wakeTime).getD 0 }]

/-! ## Circular mean of clock times -/

/-- JS `Math.atan2 y x`. -/
noncomputable def atan2 (y x : ℝ) : ℝ :=
  if 0 < x then Real.arctan (y / x)
  else if x < 0 ∧ 0 ≤ y then Real.arctan (y / x) + Real.pi
  else if x < 0 then Real.arctan (y / x) - Real.pi
  else if 0 < y then Real.pi / 2
  else if y < 0 then -(Real.pi / 2)
  else 0

/-- `averageTimeStr`: circular mean of clock times.  Each time maps to
an angle proportional to its minutes within the 1440-minute day; unit
vectors are summed (`reduce` folds), `atan2` of the normalized sums is
forced into `[0, 2π)` and mapped back to minutes, rounded.  A
non-numeric input time floods the computation with `NaN`, rendered
`"NaN:NaN"`. -/
noncomputable def averageTimeStr (times : List String) : String :=
  if times.length = 0 then "00:00"
  else if times.any (fun t => (timeToMinutes t).isNone) then "NaN:NaN"
  else
    let radians := times.map (fun t =>
      (((timeToMinutes t).getD 0 : ℝ) / 1440) * (2 * Real.pi))
    let sinSum := radians.foldl (fun sum r => sum + Real.sin r) 0
    let cosSum := radians.foldl (fun sum r => sum + Real.cos r) 0
    let avgRad0 := atan2 (sinSum / (times.length : ℝ)) (cosSum / (times.length : ℝ))
    let avgRad := if avgRad0 < 0 then avgRad0 + 2 * Real.pi else avgRad0
    let avgMinutes : ℤ := jsRoundR (avgRad / (2 * Real.pi) * 1440)
    let h : ℤ := ⌊(avgMinutes : ℚ) / 60⌋
    let m : ℤ := avgMinutes.tmod 60
    padTime h m

/-! ## Claim-side definitions -/

/-- The per-entry residual amount as the specification words it:
entries strictly after the query instant contribute zero, otherwise
`amountMg × 0.5 ^ (elapsedHours / 5)`. -/
noncomputable def caffeineRemaining (atMs : ℚ) (entry : CaffeineEntry) : ℝ :=
  if atMs < entry.timestamp then 0
  else (entry.amountMg : ℝ) *
    ((1/2 : ℝ) ^ (((((atMs - entry.timestamp) / 3600000) / 5 : ℚ) : ℝ)))

/-- Modelled from the spec for claim C3's comparison only: the weekly
average as the claim words it, restricted to records dated within the
trailing 7 calendar days (6 days ago through today). -/
def avgHoursThisWeekClaimed (sleepRecords : List SleepRecord) (today : ℤ) : ℚ :=
  let weekRecords := sleepRecords.filter (fun r =>
    today - 6 ≤ r.date && r.date ≤ today)
  if 0 < weekRecords.length then
    round2 ((weekRecords.foldl (fun sum r => sum + r.hoursSlept) 0) /
      (weekRecords.length : ℚ))
  else 0

/-! ## Infrastructure lemmas -/

/-- The JS normalization `((x % m) + m) % m` (truncated `%`) computes the
mathematical (euclidean) remainder. -/
lemma tmod_norm (x m : ℤ) (hm : 0 < m) : ((x.tmod m) + m).tmod m = x % m := by
  have hub : x.tmod m < m := Int.tmod_lt_of_pos x hm
  have h1 : (-x).tmod m < m := Int.tmod_lt_of_pos (-x) hm
  have h2 : (-x).tdiv m = -(x.tdiv m) := Int.neg_tdiv x m
  have h3 := Int.tmod_def (-x) m
  have h4 := Int.tmod_def x m
  rw [h2] at h3
  have hneg : (-x).tmod m = -(x.tmod m) := by rw [h3, h4]; ring
  have hlb : -m < x.tmod m := by rw [hneg] at h1; linarith
  have hnn : 0 ≤ x.tmod m + m := by linarith
  rw [Int.tmod_eq_emod hnn (le_of_lt hm)]
  rw [h4]
  have he : x - m * x.tdiv m + m = x + m * (1 - x.tdiv m) := by ring
  rw [he, Int.add_mul_emod_self_left]

lemma splitCh_no_sep (sep : Char) (l : List Char) (h : sep ∉ l) :
    splitCh sep l = [l] := by
  induction l with
  | nil => rfl
  | cons c cs ih =>
    simp only [List.mem_cons, not_or] at h
    simp only [splitCh]
    rw [if_neg (show ¬ c = sep from fun hc => h.1 hc.symm)]
    rw [ih h.2]

lemma splitCh_append (sep : Char) (l1 l2 : List Char) (h : sep ∉ l1) :
    splitCh sep (l1 ++ sep :: l2) = l1 :: splitCh sep l2 := by
  induction l1 with
  | nil => simp [splitCh]
  | cons c cs ih =>
    simp only [List.mem_cons, not_or] at h
    simp only [List.cons_append, splitCh]
    rw [if_neg (show ¬ c = sep from fun hc => h.1 hc.symm)]
    rw [show (cs.append (sep :: l2)) = cs ++ sep :: l2 from rfl, ih h.2]

lemma pad2_facts : ∀ n, n < 100 →
    jsNumberL (pad2 n).data = some n ∧ ':' ∉ (pad2 n).data := by decide

lemma foldl_add_eq {M α : Type*} [AddCommMonoid M] (f : α → M) (l : List α) (a : M) :
    l.foldl (fun s x => s + f x) a = a + (l.map f).sum := by
  induction l generalizing a with
  | nil => simp
  | cons x xs ih => simp [ih, add_assoc]

lemma parseTime_mk_two (a b : List Char) (ha : ':' ∉ a) (hb : ':' ∉ b) :
    parseTime ⟨a ++ ':' :: b⟩ = (jsNumberL a, jsNumberL b) := by
  unfold parseTime
  rw [show (String.mk (a ++ ':' :: b)).data = a ++ ':' :: b from rfl]
  rw [splitCh_append ':' a b ha, splitCh_no_sep ':' b hb]
  rfl

lemma data_colon_concat (s1 s2 : String) :
    (s1 ++ ":" ++ s2).data = s1.data ++ ':' :: s2.data := by
  rw [String.data_append, String.data_append]
  rw [show (":" : String).data = [':'] from rfl, List.append_assoc]
  rfl

lemma timeToMinutes_concat (a b : ℕ) (ha : a < 100) (hb : b < 100) :
    timeToMinutes (pad2 a ++ ":" ++ pad2 b) = some (a * 60 + b) := by
  have hp : parseTime (pad2 a ++ ":" ++ pad2 b) = (some a, some b) := by
    have : (pad2 a ++ ":" ++ pad2 b) = ⟨(pad2 a).data ++ ':' :: (pad2 b).data⟩ := by
      apply String.ext
      rw [data_colon_concat]
    rw [this, parseTime_mk_two _ _ (pad2_facts a ha).2 (pad2_facts b hb).2,
      (pad2_facts a ha).1, (pad2_facts b hb).1]
  unfold timeToMinutes
  rw [hp]

lemma padTime_eq (h m : ℤ) (hh0 : 0 ≤ h) (hh : h < 24) (hm0 : 0 ≤ m) :
    padTime h m = pad2 h.toNat ++ ":" ++ pad2 m.toNat := by
  unfold padTime
  have hnorm : ((h.tmod 24) + 24).tmod 24 = h := by
    rw [tmod_norm h 24 (by norm_num)]
    exact Int.emod_eq_of_lt hh0 hh
  rw [hnorm]
  show padStart2 (intToString h) ++ ":" ++ padStart2 (intToString m) =
    pad2 h.toNat ++ ":" ++ pad2 m.toNat
  unfold intToString
  rw [if_neg (not_lt.mpr hh0), if_neg (not_lt.mpr hm0)]
  rfl

/-- On a parsable input time, `addMinutesToTime` renders
`padTime` of the hour and minute of `(t + δ) mod 1440`. -/
lemma addMinutesToTime_eq_padTime (s : String) (t : ℕ) (δ : ℤ)
    (ht : timeToMinutes s = some t) :
    addMinutesToTime s δ =
      padTime ((((t : ℤ) + δ) % 1440) / 60) ((((t : ℤ) + δ) % 1440) % 60) := by
  have he0 : (0 : ℤ) ≤ ((t : ℤ) + δ) % 1440 := Int.emod_nonneg _ (by norm_num)
  unfold addMinutesToTime
  rw [ht]
  simp only [tmod_norm _ 1440 (by norm_num)]
  rw [Int.tmod_eq_emod he0 (by norm_num)]
  congr 1
  exact_mod_cast Rat.floor_intCast_div_natCast (((t : ℤ) + δ) % 1440) 60

/-- Parse-back of `addMinutesToTime`: on a parsable input time it renders
the clock time whose minutes-of-day value is `(t + δ) mod 1440`. -/
lemma timeToMinutes_addMinutesToTime (s : String) (t : ℕ) (δ : ℤ)
    (ht : timeToMinutes s = some t) :
    timeToMinutes (addMinutesToTime s δ) = some (((((t : ℤ) + δ) % 1440)).toNat) := by
  have he0 : (0 : ℤ) ≤ ((t : ℤ) + δ) % 1440 := Int.emod_nonneg _ (by norm_num)
  have he1 : ((t : ℤ) + δ) % 1440 < 1440 := Int.emod_lt_of_pos _ (by norm_num)
  rw [addMinutesToTime_eq_padTime s t δ ht]
  rw [padTime_eq _ _ (by omega) (by omega) (by omega)]
  rw [timeToMinutes_concat _ _ (by omega) (by omega)]
  congr 1
  omega

lemma getD_map_range {α : Type*} (n k : ℕ) (hk : k < n) (f : ℕ → α) (d : α) :
    ((List.range n).map f).getD k d = f k := by
  rw [List.getD_eq_getElem?_getD, List.getElem?_map, List.getElem?_range hk]
  rfl

/-! ## Claim C2: parseTime and malformed input -/

/-- C2, counterexample: the input `"1:2:3"` does not consist of exactly
two `':'`-separated components, yet `parseTime` does not fail — it
silently returns the two numeric components `(1, 2)` and ignores the
rest. -/
theorem parseTime_invalidFormat_counterexample :
    (splitCh ':' "1:2:3".data).length ≠ 2 ∧
    parseTime "1:2:3" = (some 1, some 2) := by
  exact ⟨by decide, by decide⟩

/-- C2 (amended): `parseTime` performs no validation and signals no
error: it converts the first two `':'`-separated components with
`Number`, a missing component is non-numeric (`undefined`), and extra
components are silently ignored. -/
theorem parseTime_silent_no_validation (s : String) :
    ((splitCh ':' s.data).length = 1 → (parseTime s).2 = none) ∧
    (∀ a b rest, splitCh ':' s.data = a :: b :: rest →
      parseTime s = (jsNumberL a, jsNumberL b)) := by
  constructor
  · intro h
    obtain ⟨x, hx⟩ := List.length_eq_one.mp h
    unfold parseTime
    rw [hx]
    rfl
  · intro a b rest hs
    unfold parseTime
    rw [hs]
    rfl

/-- C2 witness: concrete instances of the amended claim. -/
theorem parseTime_silent_no_validation_witness :
    (parseTime "7").2 = none ∧
    parseTime "1:2:3" = (jsNumberL "1".data, jsNumberL "2".data) :=
  ⟨(parseTime_silent_no_validation "7").1 (by decide),
   (parseTime_silent_no_validation "1:2:3").2 "1".data "2".data ["3".data] (by decide)⟩

/-! ## Claim C6: the sleep-cycle calculator -/

instance : Inhabited OptimalTime := ⟨⟨"", 0, 0, .poor⟩⟩

/-- The quality table as the claim words it: ≤ 2 cycles poor, 3 fair,
4 good, ≥ 5 great. -/
def qualityGrade (cycles : ℕ) : Quality :=
  if cycles ≤ 2 then .poor
  else if cycles = 3 then .fair
  else if cycles = 4 then .good
  else .great

/-- C6: for every valid clock-time target (one that parses to a
minutes-of-day value `t < 1440`), both modes return exactly 6
candidates; in bedtime mode the `k`-th candidate has `6 - k` cycles and
time `target − (cycles·90 + 15)` minutes mod 24 h, in wakeup mode the
`k`-th has `k + 1` cycles and time `target + (cycles·90 + 15)` minutes
mod 24 h, and quality is graded poor/fair/good/great by the fixed
table.  Concretely, for target 07:00 in bedtime mode the first entry is
21:45 (6 cycles, great) and the last is 05:15 (1 cycle, poor). -/
theorem calculateOptimalTimes_spec :
    (∀ (target : String) (t : ℕ), timeToMinutes target = some t → t < 1440 →
      (calculateOptimalTimes target .bedtime).length = 6 ∧
      (calculateOptimalTimes target .wakeup).length = 6 ∧
      (∀ k, k < 6 →
        ((calculateOptimalTimes target .bedtime).getD k default).cycles = 6 - k ∧
        timeToMinutes ((calculateOptimalTimes target .bedtime).getD k default).time =
          some ((((t : ℤ) - (((6 - k : ℕ) : ℤ) * 90 + 15)) % 1440).toNat) ∧
        ((calculateOptimalTimes target .bedtime).getD k default).quality =
          qualityGrade (6 - k)) ∧
      (∀ k, k < 6 →
        ((calculateOptimalTimes target .wakeup).getD k default).cycles = k + 1 ∧
        timeToMinutes ((calculateOptimalTimes target .wakeup).getD k default).time =
          some ((((t : ℤ) + (((k + 1 : ℕ) : ℤ) * 90 + 15)) % 1440).toNat) ∧
        ((calculateOptimalTimes target .wakeup).getD k default).quality =
          qualityGrade (k + 1))) ∧
    calculateOptimalTimes "07:00" .bedtime =
      [⟨"21:45", 6, 9, .great⟩, ⟨"23:15", 5, 15/2, .great⟩, ⟨"00:45", 4, 6, .good⟩,
       ⟨"02:15", 3, 9/2, .fair⟩, ⟨"03:45", 2, 3, .poor⟩, ⟨"05:15", 1, 3/2, .poor⟩] := by
  constructor
  · intro target t ht htlt
    refine ⟨by simp [calculateOptimalTimes], by simp [calculateOptimalTimes], ?_, ?_⟩
    · intro k hk
      have hel : (calculateOptimalTimes target .bedtime).getD k default =
          { time := subtractMinutesFromTime target (((6 - k) * SLEEP_CYCLE_MINUTES +
              FALL_ASLEEP_MINUTES : ℕ) : ℤ)
            cycles := 6 - k
            hours := round2 ((((6 - k) * SLEEP_CYCLE_MINUTES : ℕ) : ℚ) / 60)
            quality := qualityFromCycles (6 - k) } := by
        unfold calculateOptimalTimes
        exact getD_map_range 6 k hk _ _
      rw [hel]
      refine ⟨rfl, ?_, rfl⟩
      show timeToMinutes (subtractMinutesFromTime target _) = _
      unfold subtractMinutesFromTime
      rw [timeToMinutes_addMinutesToTime target t _ ht]
      have harg : (t : ℤ) + -((((6 - k) * SLEEP_CYCLE_MINUTES +
          FALL_ASLEEP_MINUTES : ℕ)) : ℤ) = (t : ℤ) - (((6 - k : ℕ) : ℤ) * 90 + 15) := by
        push_cast [SLEEP_CYCLE_MINUTES, FALL_ASLEEP_MINUTES]
        ring
      rw [harg]
    · intro k hk
      have hel : (calculateOptimalTimes target .wakeup).getD k default =
          { time := addMinutesToTime target (((k + 1) * SLEEP_CYCLE_MINUTES +
              FALL_ASLEEP_MINUTES : ℕ) : ℤ)
            cycles := k + 1
            hours := round2 ((((k + 1) * SLEEP_CYCLE_MINUTES : ℕ) : ℚ) / 60)
            quality := qualityFromCycles (k + 1) } := by
        unfold calculateOptimalTimes
        exact getD_map_range 6 k hk _ _
      rw [hel]
      refine ⟨rfl, ?_, rfl⟩
      show timeToMinutes (addMinutesToTime target _) = _
      rw [timeToMinutes_addMinutesToTime target t _ ht]
      have harg : (t : ℤ) + ((((k + 1) * SLEEP_CYCLE_MINUTES +
          FALL_ASLEEP_MINUTES : ℕ)) : ℤ) = (t : ℤ) + (((k + 1 : ℕ) : ℤ) * 90 + 15) := by
        push_cast [SLEEP_CYCLE_MINUTES, FALL_ASLEEP_MINUTES]
        ring
      rw [harg]
  · have h700 : timeToMinutes "07:00" = some 420 := by decide
    have hx : ∀ (δ : ℤ) (a b : ℤ) (s : String),
        (((420 : ℤ) + δ) % 1440) / 60 = a → (((420 : ℤ) + δ) % 1440) % 60 = b →
        padTime a b = s → addMinutesToTime "07:00" δ = s := by
      intro δ a b s h1 h2 h3
      rw [addMinutesToTime_eq_padTime "07:00" 420 δ h700]
      push_cast
      rw [h1, h2, h3]
    have hA : addMinutesToTime "07:00" (-555) = "21:45" :=
      hx _ 21 45 _ (by decide) (by decide) (by decide)
    have hB : addMinutesToTime "07:00" (-465) = "23:15" :=
      hx _ 23 15 _ (by decide) (by decide) (by decide)
    have hC : addMinutesToTime "07:00" (-375) = "00:45" :=
      hx _ 0 45 _ (by decide) (by decide) (by decide)
    have hD : addMinutesToTime "07:00" (-285) = "02:15" :=
      hx _ 2 15 _ (by decide) (by decide) (by decide)
    have hE : addMinutesToTime "07:00" (-195) = "03:45" :=
      hx _ 3 45 _ (by decide) (by decide) (by decide)
    have hF : addMinutesToTime "07:00" (-105) = "05:15" :=
      hx _ 5 15 _ (by decide) (by decide) (by decide)
    unfold calculateOptimalTimes subtractMinutesFromTime
    rw [show List.range 6 = [0, 1, 2, 3, 4, 5] from rfl]
    simp only [List.map_cons, List.map_nil, SLEEP_CYCLE_MINUTES, FALL_ASLEEP_MINUTES]
    norm_num
    refine ⟨⟨hA, ?_⟩, ⟨hB, ?_⟩, ⟨hC, ?_⟩, ⟨hD, ?_⟩, ⟨hE, ?_⟩, ⟨hF, ?_⟩⟩ <;>
      norm_num [round2, jsRound, qualityFromCycles]

/-- C6 witness: the general part instantiated at target 07:00
(`t = 420`). -/
theorem calculateOptimalTimes_spec_witness :
    (calculateOptimalTimes "07:00" .bedtime).length = 6 ∧
    ((calculateOptimalTimes "07:00" .bedtime).getD 0 default).cycles = 6 ∧
    timeToMinutes ((calculateOptimalTimes "07:00" .bedtime).getD 0 default).time =
      some ((((420 : ℤ) - (((6 - 0 : ℕ) : ℤ) * 90 + 15)) % 1440).toNat) ∧
    ((calculateOptimalTimes "07:00" .wakeup).getD 5 default).cycles = 6 := by
  obtain ⟨hgen, -⟩ := calculateOptimalTimes_spec
  obtain ⟨hlen, -, hbed, hwake⟩ := hgen "07:00" 420 (by decide) (by decide)
  exact ⟨hlen, (hbed 0 (by decide)).1, (hbed 0 (by decide)).2.1,
    (hwake 5 (by decide)).1⟩

/-! ## Claim C10: positivity of computed sleep hours -/

lemma calculateHoursSlept_eq (bed wake : String) (tb tw : ℕ)
    (hb : timeToMinutes bed = some tb) (hw : timeToMinutes wake = some tw) :
    calculateHoursSlept bed wake =
      some (round2 ((((if (tw : ℤ) ≤ (tb : ℤ) then (tw : ℤ) + 24 * 60 else (tw : ℤ)) -
        (tb : ℤ) : ℤ) : ℚ) / 60)) := by
  unfold calculateHoursSlept
  rw [hb, hw]

lemma round2_div60_pos (d : ℤ) (h1 : 1 ≤ d) : 0 < round2 ((d : ℚ) / 60) := by
  unfold round2 jsRound
  apply div_pos ?_ (by norm_num)
  have h2 : (1 : ℤ) ≤ ⌊(d : ℚ) / 60 * 100 + 1/2⌋ := by
    apply Int.le_floor.mpr
    have hd : (1 : ℚ) ≤ (d : ℚ) := by exact_mod_cast h1
    have he : (d : ℚ) / 60 * 100 = d * (5/3) := by ring
    rw [he]
    push_cast
    linarith
  exact_mod_cast lt_of_lt_of_le Int.one_pos (by exact_mod_cast h2)

lemma round2_div60_le (d : ℤ) (h2 : d ≤ 1440) : round2 ((d : ℚ) / 60) ≤ 24 := by
  unfold round2 jsRound
  rw [div_le_iff₀ (by norm_num)]
  have h3 : ⌊(d : ℚ) / 60 * 100 + 1/2⌋ ≤ 2400 := by
    have hd : (d : ℚ) ≤ 1440 := by exact_mod_cast h2
    have he : (d : ℚ) / 60 * 100 = d * (5/3) := by ring
    calc ⌊(d : ℚ) / 60 * 100 + 1/2⌋ ≤ ⌊(4801/2 : ℚ)⌋ := by
          apply Int.floor_le_floor
          rw [he]
          linarith
      _ = 2400 := by norm_num
  calc ((⌊(d : ℚ) / 60 * 100 + 1/2⌋ : ℤ) : ℚ) ≤ 2400 := by exact_mod_cast h3
    _ = 24 * 100 := by norm_num

/-- The hours looked up for a day, as the claim words it: the first
record whose date matches exactly, else 0. -/
def hoursForDay (records : List SleepRecord) (day : ℤ) : ℚ :=
  match records.find? (fun r => r.date = day) with
  | some r => r.hoursSlept
  | none => 0

/-- The daily list of `calculateSleepDebt`, described pointwise. -/
lemma calculateSleepDebt_daily (records : List SleepRecord) (rh : ℚ) (today : ℤ) :
    (calculateSleepDebt records rh today).daily = (List.range 7).map (fun k =>
      { day := today - 6 + (k : ℤ)
        dayLabel := dayLabelOf (today - 6 + (k : ℤ))
        hours := hoursForDay records (today - 6 + (k : ℤ))
        debt := max 0 (rh - hoursForDay records (today - 6 + (k : ℤ))) }) := by
  unfold calculateSleepDebt hoursForDay
  rfl

lemma calculateSleepDebt_totalDebt (records : List SleepRecord) (rh : ℚ) (today : ℤ) :
    (calculateSleepDebt records rh today).totalDebt =
      round2 ((calculateSleepDebt records rh today).daily.foldl
        (fun sum d => sum + d.debt) 0) := rfl

lemma calculateSleepDebt_avgHours (records : List SleepRecord) (rh : ℚ) (today : ℤ) :
    (calculateSleepDebt records rh today).avgHours =
      (if 0 < ((calculateSleepDebt records rh today).daily.filter
          (fun d => 0 < d.hours)).length
       then round2 (((calculateSleepDebt records rh today).daily.filter
          (fun d => 0 < d.hours)).foldl (fun sum d => sum + d.hours) 0 /
            ((((calculateSleepDebt records rh today).daily.filter
              (fun d => 0 < d.hours)).length : ℚ)))
       else 0) := rfl

lemma hoursForDay_pos_iff (records : List SleepRecord) (day : ℤ)
    (hpos : ∀ r ∈ records, 0 < r.hoursSlept) :
    0 < hoursForDay records day ↔ ∃ r ∈ records, r.date = day := by
  unfold hoursForDay
  rcases hfind : records.find? (fun r => r.date = day) with - | r <;> rw [hfind]
  · rw [List.find?_eq_none] at hfind
    constructor
    · intro h
      exact absurd h (lt_irrefl 0)
    · rintro ⟨r, hr, hd⟩
      exact absurd hd (by simpa using hfind r hr)
  · constructor
    · intro h
      exact ⟨r, List.mem_of_find?_eq_some hfind, by simpa using List.find?_some hfind⟩
    · intro h
      exact hpos r (List.mem_of_find?_eq_some hfind)

/-- C10: for valid `HH:mm` bed/wake times, `calculateHoursSlept` is
strictly positive and at most 24, equal bed and wake times give 24
(never 0); every record appended by `addSleepRecord` carries that
value; and in the debt window a day's hours are positive exactly when
the day has a matching record, provided all records have positive
hours — so recorded days are never dropped from `avgHours` by the
`hours > 0` filter. -/
theorem calculateHoursSlept_pos :
    (∀ (bed wake : String) (hb mb hw mw : ℕ),
      parseTime bed = (some hb, some mb) → hb < 24 → mb < 60 →
      parseTime wake = (some hw, some mw) → hw < 24 → mw < 60 →
      ∃ q : ℚ, calculateHoursSlept bed wake = some q ∧ 0 < q ∧ q ≤ 24 ∧
        (hw * 60 + mw = hb * 60 + mb → q = 24)) ∧
    (∀ (prev : List SleepRecord) (id : String) (date : ℤ) (bed wake : String) (q : ℚ),
      calculateHoursSlept bed wake = some q →
      ∀ r ∈ addSleepRecord prev id date bed wake, r ∈ prev ∨ r.hoursSlept = q) ∧
    (∀ (records : List SleepRecord) (rh : ℚ) (today : ℤ),
      (∀ r ∈ records, 0 < r.hoursSlept) →
      ∀ d ∈ (calculateSleepDebt records rh today).daily,
        (0 < d.hours ↔ ∃ r ∈ records, r.date = d.day)) := by
  refine ⟨?_, ?_, ?_⟩
  · intro bed wake hb mb hw mw hpb hhb hmb hpw hhw hmw
    have htb : timeToMinutes bed = some (hb * 60 + mb) := by
      unfold timeToMinutes
      rw [hpb]
    have htw : timeToMinutes wake = some (hw * 60 + mw) := by
      unfold timeToMinutes
      rw [hpw]
    rw [calculateHoursSlept_eq bed wake _ _ htb htw]
    refine ⟨_, rfl, ?_, ?_, ?_⟩
    · apply round2_div60_pos
      split_ifs with h <;> push_cast <;> omega
    · apply round2_div60_le
      split_ifs with h <;> push_cast <;> omega
    · intro heq
      rw [if_pos (by exact_mod_cast Nat.le_of_eq heq)]
      have hd : ((hw * 60 + mw : ℕ) : ℤ) + 24 * 60 - ((hb * 60 + mb : ℕ) : ℤ) = 1440 := by
        have : ((hw * 60 + mw : ℕ) : ℤ) = ((hb * 60 + mb : ℕ) : ℤ) := by
          exact_mod_cast heq
        omega
      rw [hd]
      norm_num [round2, jsRound]
  · intro prev id date bed wake q hq r hr
    unfold addSleepRecord at hr
    rw [List.mem_append] at hr
    rcases hr with hr | hr
    · exact Or.inl hr
    · right
      rw [List.mem_singleton] at hr
      rw [hr, hq]
      rfl
  · intro records rh today hpos d hd
    rw [calculateSleepDebt_daily, List.mem_map] at hd
    obtain ⟨k, hk, hfk⟩ := hd
    rw [← hfk]
    exact hoursForDay_pos_iff records _ hpos

/-- C10 witness: the 23:00 → 07:00 record gives 8 hours, and the
record-creation part applied to it. -/
theorem calculateHoursSlept_pos_witness :
    calculateHoursSlept "23:00" "07:00" = some 8 ∧
    (∀ r ∈ addSleepRecord [] "id" 0 "23:00" "07:00",
      r ∈ ([] : List SleepRecord) ∨ r.hoursSlept = 8) := by
  have h8 : calculateHoursSlept "23:00" "07:00" = some 8 := by
    rw [calculateHoursSlept_eq "23:00" "07:00" 1380 420 (by decide) (by decide)]
    norm_num [round2, jsRound]
  exact ⟨h8, calculateHoursSlept_pos.2.1 [] "id" 0 "23:00" "07:00" 8 h8⟩

/-! ## Claim C1: the sleep-debt aggregator -/

instance : Inhabited DailyDebt := ⟨⟨0, "", 0, 0⟩⟩

lemma SleepDebtResult.mk_eq (x : SleepDebtResult) {l : List DailyDebt} {t a : ℚ}
    (h1 : x.daily = l) (h2 : x.totalDebt = t) (h3 : x.avgHours = a) :
    x = ⟨l, t, a⟩ := by
  cases x
  simp_all

/-- C1 (amended): `calculateSleepDebt` returns exactly 7 daily entries
for days `today−6 … today` (oldest first); each day's debt is
`max 0 (recommendedHours − hours)` with hours 0 for a day with no
matching record; `totalDebt` is the sum of the 7 debts rounded to 2
decimals; `avgHours` is the mean over days with `hours > 0` — rounded
to 2 decimals — and 0 when no day qualifies.  Concretely, with only a
5-hour record for today and recommended 8, the debts are
8,8,8,8,8,8,3, `totalDebt` is 51 and `avgHours` is 5. -/
theorem calculateSleepDebt_spec :
    (∀ (records : List SleepRecord) (rh : ℚ) (today : ℤ),
      (calculateSleepDebt records rh today).daily.length = 7 ∧
      (∀ k, k < 7 →
        (calculateSleepDebt records rh today).daily.getD k default =
          { day := today - 6 + (k : ℤ)
            dayLabel := dayLabelOf (today - 6 + (k : ℤ))
            hours := hoursForDay records (today - 6 + (k : ℤ))
            debt := max 0 (rh - hoursForDay records (today - 6 + (k : ℤ))) }) ∧
      (calculateSleepDebt records rh today).totalDebt =
        round2 (((calculateSleepDebt records rh today).daily.map DailyDebt.debt).sum) ∧
      (calculateSleepDebt records rh today).avgHours =
        (if ((calculateSleepDebt records rh today).daily.filter
            (fun d => 0 < d.hours)).length = 0 then 0
         else round2
          ((((calculateSleepDebt records rh today).daily.filter
              (fun d => 0 < d.hours)).map DailyDebt.hours).sum /
            (((calculateSleepDebt records rh today).daily.filter
              (fun d => 0 < d.hours)).length : ℚ)))) ∧
    ((calculateSleepDebt [⟨"r", 0, "23:00", "04:00", 5⟩] 8 0).daily.map DailyDebt.debt =
        [8, 8, 8, 8, 8, 8, 3] ∧
      (calculateSleepDebt [⟨"r", 0, "23:00", "04:00", 5⟩] 8 0).totalDebt = 51 ∧
      (calculateSleepDebt [⟨"r", 0, "23:00", "04:00", 5⟩] 8 0).avgHours = 5) := by
  constructor
  · intro records rh today
    refine ⟨?_, ?_, ?_, ?_⟩
    · rw [calculateSleepDebt_daily]
      simp
    · intro k hk
      rw [calculateSleepDebt_daily, getD_map_range 7 k hk _ _]
    · rw [calculateSleepDebt_totalDebt, foldl_add_eq DailyDebt.debt _ 0, zero_add]
    · rw [calculateSleepDebt_avgHours]
      rcases Nat.eq_zero_or_pos ((calculateSleepDebt records rh today).daily.filter
          (fun d => 0 < d.hours)).length with hz | hp
      · rw [if_neg (by omega), if_pos hz]
      · rw [if_pos hp, if_neg (by omega)]
        rw [foldl_add_eq DailyDebt.hours _ 0, zero_add]
  · have hd0 : hoursForDay [⟨"r", 0, "23:00", "04:00", 5⟩] 0 = 5 := by
      unfold hoursForDay
      simp [List.find?]
    have hdn : ∀ d : ℤ, d ≠ 0 → hoursForDay [⟨"r", 0, "23:00", "04:00", 5⟩] d = 0 := by
      intro d hd
      unfold hoursForDay
      simp [List.find?, Ne.symm hd]
    have hdaily : (calculateSleepDebt [⟨"r", 0, "23:00", "04:00", 5⟩] 8 0).daily =
        [⟨-6, dayLabelOf (-6), 0, 8⟩, ⟨-5, dayLabelOf (-5), 0, 8⟩,
          ⟨-4, dayLabelOf (-4), 0, 8⟩, ⟨-3, dayLabelOf (-3), 0, 8⟩,
          ⟨-2, dayLabelOf (-2), 0, 8⟩, ⟨-1, dayLabelOf (-1), 0, 8⟩,
          ⟨0, dayLabelOf 0, 5, 3⟩] := by
      rw [calculateSleepDebt_daily]
      rw [show List.range 7 = [0, 1, 2, 3, 4, 5, 6] from rfl]
      simp only [List.map_cons, List.map_nil]
      norm_num [hd0, hdn]
    have htotal : (calculateSleepDebt [⟨"r", 0, "23:00", "04:00", 5⟩] 8 0).totalDebt = 51 := by
      rw [calculateSleepDebt_totalDebt, hdaily]
      norm_num [List.foldl, round2, jsRound]
    have havg : (calculateSleepDebt [⟨"r", 0, "23:00", "04:00", 5⟩] 8 0).avgHours = 5 := by
      rw [calculateSleepDebt_avgHours, hdaily]
      norm_num [List.filter, List.foldl, round2, jsRound]
    refine ⟨?_, htotal, havg⟩
    rw [hdaily]
    norm_num

/-- C1 witness: the per-day description instantiated on the concrete
scenario (day index 6 = today). -/
theorem calculateSleepDebt_spec_witness :
    (calculateSleepDebt [⟨"r", 0, "23:00", "04:00", 5⟩] 8 0).daily.getD 6 default =
      { day := 0, dayLabel := dayLabelOf 0, hours := 5, debt := 3 } := by
  have h := ((calculateSleepDebt_spec.1 [⟨"r", 0, "23:00", "04:00", 5⟩] 8 0).2.1 6
    (by norm_num))
  rw [h]
  have hh5 : hoursForDay [⟨"r", 0, "23:00", "04:00", 5⟩] 0 = 5 := by
    unfold hoursForDay
    simp [List.find?]
  norm_num [hh5]

/-- C1 counterexample: the claim's `avgHours` (the exact mean over the
positive-hour days) differs from the code's, which rounds the mean to 2
decimals: with hours 0.01 and 0.02 the code returns 0.02, not 0.015. -/
theorem calculateSleepDebt_avg_counterexample :
    (calculateSleepDebt [⟨"a", 0, "23:00", "04:00", 1/100⟩,
        ⟨"b", -1, "23:00", "04:00", 1/50⟩] 8 0).avgHours ≠
      (1/50 + 1/100) / 2 := by
  have hd0 : hoursForDay [⟨"a", 0, "23:00", "04:00", 1/100⟩,
      ⟨"b", -1, "23:00", "04:00", 1/50⟩] 0 = 1/100 := by
    unfold hoursForDay
    simp [List.find?]
  have hd1 : hoursForDay [⟨"a", 0, "23:00", "04:00", 1/100⟩,
      ⟨"b", -1, "23:00", "04:00", 1/50⟩] (-1) = 1/50 := by
    unfold hoursForDay
    simp [List.find?]
  have hdn : ∀ d : ℤ, d ≠ 0 → d ≠ -1 → hoursForDay [⟨"a", 0, "23:00", "04:00", 1/100⟩,
      ⟨"b", -1, "23:00", "04:00", 1/50⟩] d = 0 := by
    intro d h1 h2
    unfold hoursForDay
    simp [List.find?, Ne.symm h1, Ne.symm h2]
  have hdaily : (calculateSleepDebt [⟨"a", 0, "23:00", "04:00", 1/100⟩,
      ⟨"b", -1, "23:00", "04:00", 1/50⟩] 8 0).daily =
      [⟨-6, dayLabelOf (-6), 0, 8⟩, ⟨-5, dayLabelOf (-5), 0, 8⟩,
        ⟨-4, dayLabelOf (-4), 0, 8⟩, ⟨-3, dayLabelOf (-3), 0, 8⟩,
        ⟨-2, dayLabelOf (-2), 0, 8⟩, ⟨-1, dayLabelOf (-1), 1/50, 8 - 1/50⟩,
        ⟨0, dayLabelOf 0, 1/100, 8 - 1/100⟩] := by
    rw [calculateSleepDebt_daily]
    rw [show List.range 7 = [0, 1, 2, 3, 4, 5, 6] from rfl]
    simp only [List.map_cons, List.map_nil]
    norm_num [hd0, hd1, hdn]
  rw [calculateSleepDebt_avgHours, hdaily]
  norm_num [List.filter, List.foldl, round2, jsRound]

/-! ## Claim C3: the weekly average of the stats memo -/

/-- C3 counterexample: a record dated exactly 7 days before today is
included by the code (`sevenDaysAgo = now − 7 days`, filter
`date >= sevenDaysAgoISO`), so the window spans 8 calendar days, not
the claimed 7 ("6 days ago through today"). -/
theorem statsAvgHoursThisWeek_counterexample :
    statsAvgHoursThisWeek [⟨"a", 3, "23:00", "07:00", 4⟩] 10 ≠
      avgHoursThisWeekClaimed [⟨"a", 3, "23:00", "07:00", 4⟩] 10 := by
  unfold statsAvgHoursThisWeek avgHoursThisWeekClaimed
  norm_num [List.filter, round2, jsRound]

/-- C3 (amended): the weekly average is the mean of `hoursSlept`
(rounded to 2 decimals) over the records dated within the trailing
**8** calendar days, from 7 days ago through today; records outside
that window contribute nothing, and there is no `hours > 0` filter —
every in-window record counts, including explicit zero-hour entries
(which enter the denominator). -/
theorem statsAvgHoursThisWeek_window :
    (∀ (records : List SleepRecord) (today : ℤ) (r : SleepRecord),
      (r.date < today - 7 ∨ today < r.date) →
      statsAvgHoursThisWeek (r :: records) today = statsAvgHoursThisWeek records today) ∧
    (∀ (today : ℤ) (h : ℚ) (id bt wt : String),
      statsAvgHoursThisWeek [⟨id, today - 7, bt, wt, h⟩] today = round2 h ∧
      statsAvgHoursThisWeek [⟨id, today - 8, bt, wt, h⟩] today = 0 ∧
      statsAvgHoursThisWeek [⟨id, today - 7, bt, wt, 0⟩, ⟨id, today, bt, wt, h⟩] today =
        round2 (h / 2)) := by
  constructor
  · intro records today r hout
    have hc : (decide (today - 7 ≤ r.date) && decide (r.date ≤ today)) = false := by
      simp only [Bool.and_eq_false_iff, decide_eq_false_iff_not, not_le]
      omega
    simp only [statsAvgHoursThisWeek, List.filter_cons, hc]
    simp
  · intro today h id bt wt
    have hin : ∀ d : ℤ, today - 7 ≤ d → d ≤ today →
        (decide (today - 7 ≤ d) && decide (d ≤ today)) = true := by
      intro d h1 h2
      simp [h1, h2]
    refine ⟨?_, ?_, ?_⟩
    · simp only [statsAvgHoursThisWeek, List.filter_cons, List.filter_nil,
        hin (today - 7) (by omega) (by omega)]
      norm_num
    · have hc : (decide (today - 7 ≤ today - 8) && decide (today - 8 ≤ today)) = false := by
        simp only [Bool.and_eq_false_iff, decide_eq_false_iff_not, not_le]
        omega
      simp only [statsAvgHoursThisWeek, List.filter_cons, List.filter_nil, hc]
      simp
    · simp only [statsAvgHoursThisWeek, List.filter_cons, List.filter_nil,
        hin (today - 7) (by omega) (by omega), hin today (by omega) (by omega)]
      norm_num

/-- C3 witness: the invariance part at a record dated 8 days ago. -/
theorem statsAvgHoursThisWeek_window_witness :
    statsAvgHoursThisWeek [⟨"x", -8, "23:00", "07:00", 5⟩] 0 =
      statsAvgHoursThisWeek [] 0 :=
  statsAvgHoursThisWeek_window.1 [] 0 ⟨"x", -8, "23:00", "07:00", 5⟩
    (Or.inl (by norm_num))

/-! ## Claim C4: determinism and the wall clock -/

/-- C4 counterexample: with identical explicit inputs (no records,
recommended 8 h) but the wall clock read on two different days,
`calculateSleepDebt` returns different outputs — the implicit
`new Date()` read influences the result. -/
theorem calculateSleepDebt_clock_counterexample :
    calculateSleepDebt [] 8 0 ≠ calculateSleepDebt [] 8 1 := by
  intro heq
  have h1 : (calculateSleepDebt [] 8 0).daily.getD 6 default =
      (calculateSleepDebt [] 8 1).daily.getD 6 default := by rw [heq]
  rw [calculateSleepDebt_daily, calculateSleepDebt_daily,
    getD_map_range 7 6 (by norm_num) _ _, getD_map_range 7 6 (by norm_num) _ _] at h1
  have h2 : (0 : ℤ) - 6 + (6 : ℕ) = (1 : ℤ) - 6 + (6 : ℕ) := congrArg DailyDebt.day h1
  norm_num at h2

/-- C4 (amended): in the embedding every engine function is a pure
function of its explicit arguments together with the explicit
`today`/`now` parameter standing for the code's implicit `new Date()`
read (`calculateOptimalTimes` and `calculateCaffeineTimeline` take no
such parameter at all); but that wall-clock parameter genuinely
influences the results of `calculateSleepDebt` (and hence of the stats
and tips built on it): any two distinct reference days give distinct
outputs even for identical explicit inputs. -/
theorem calculateSleepDebt_clock_dependence (rh : ℚ) (t t' : ℤ) (hne : t ≠ t') :
    calculateSleepDebt [] rh t ≠ calculateSleepDebt [] rh t' := by
  intro heq
  have h1 : (calculateSleepDebt [] rh t).daily.getD 6 default =
      (calculateSleepDebt [] rh t').daily.getD 6 default := by rw [heq]
  rw [calculateSleepDebt_daily, calculateSleepDebt_daily,
    getD_map_range 7 6 (by norm_num) _ _, getD_map_range 7 6 (by norm_num) _ _] at h1
  have h2 : t - 6 + (6 : ℕ) = t' - 6 + (6 : ℕ) := congrArg DailyDebt.day h1
  exact hne (by omega)

/-- C4 witness: two concrete distinct days. -/
theorem calculateSleepDebt_clock_dependence_witness :
    calculateSleepDebt [] 8 2 ≠ calculateSleepDebt [] 8 5 :=
  calculateSleepDebt_clock_dependence 8 2 5 (by norm_num)

/-! ## Claim C9: tip generation -/

lemma highCaffeineTip_title (stats : SleepStats) :
    (highCaffeineTip stats).title = "카페인 주의" := rfl

lemma moderateCaffeineTip_title (stats : SleepStats) :
    (moderateCaffeineTip stats).title = "카페인 잔여량 확인" := rfl

lemma severeDebtTip_title (stats : SleepStats) :
    (severeDebtTip stats).title = "심각한 수면 부족" := rfl

lemma moderateDebtTip_title (stats : SleepStats) :
    (moderateDebtTip stats).title = "수면 부족 누적" := rfl

lemma shortSleepTip_title (stats : SleepStats) :
    (shortSleepTip stats).title = "수면 시간 부족" := rfl

lemma variabilityTip_title (stats : SleepStats) :
    (variabilityTip stats).title = "수면 편차 큼" := rfl

set_option maxHeartbeats 2000000 in
/-- C9: the tips are the cascade in generation order truncated to the
first 8 (so never more than 8 and never re-sorted), and the
high-caffeine (> 200 mg) and moderate-caffeine (> 100 mg) warnings are
mutually exclusive — at most one of the two titles ever appears. -/
theorem generateSleepTips_spec (stats : SleepStats) (entries : List CaffeineEntry)
    (now : ℚ) :
    (generateSleepTips stats entries now).length ≤ 8 ∧
    generateSleepTips stats entries now = (tipCascade stats entries now).take 8 ∧
    ¬("카페인 주의" ∈ (generateSleepTips stats entries now).map SleepTip.title ∧
      "카페인 잔여량 확인" ∈ (generateSleepTips stats entries now).map SleepTip.title) := by
  refine ⟨?_, rfl, ?_⟩
  · show ((tipCascade stats entries now).take 8).length ≤ 8
    rw [List.length_take]
    exact min_le_left _ _
  · rintro ⟨h1, h2⟩
    have hsub : ∀ s : String,
        s ∈ (generateSleepTips stats entries now).map SleepTip.title →
        s ∈ (tipCascade stats entries now).map SleepTip.title := by
      intro s hs
      unfold generateSleepTips at hs
      rw [List.map_take] at hs
      exact List.mem_of_mem_take hs
    have h1' := hsub _ h1
    have h2' := hsub _ h2
    clear h1 h2 hsub
    unfold tipCascade at h1' h2'
    by_cases hc200 : (200 : ℚ) < stats.currentCaffeineMg
    · rw [if_pos hc200] at h2'
      split_ifs at h2' <;>
        simp_all only [List.map_append, List.map_cons, List.map_nil, List.mem_append,
          List.mem_cons, List.not_mem_nil, or_false, false_or,
          highCaffeineTip_title, moderateCaffeineTip_title, severeDebtTip_title,
          moderateDebtTip_title, shortSleepTip_title, variabilityTip_title,
          regularBedtimeTip, lateCaffeineTip, blueLightTip, temperatureTip,
          exerciseTip, mealTip, String.reduceEq]
    · rw [if_neg hc200] at h1'
      split_ifs at h1' <;>
        simp_all only [List.map_append, List.map_cons, List.map_nil, List.mem_append,
          List.mem_cons, List.not_mem_nil, or_false, false_or,
          highCaffeineTip_title, moderateCaffeineTip_title, severeDebtTip_title,
          moderateDebtTip_title, shortSleepTip_title, variabilityTip_title,
          regularBedtimeTip, lateCaffeineTip, blueLightTip, temperatureTip,
          exerciseTip, mealTip, String.reduceEq]

/-! ## Claims C5 and C7: the caffeine decay model -/

lemma caffeineRemaining_nonneg (atMs : ℚ) (e : CaffeineEntry) (h : 0 ≤ e.amountMg) :
    0 ≤ caffeineRemaining atMs e := by
  unfold caffeineRemaining
  split_ifs
  · exact le_refl 0
  · exact mul_nonneg (by exact_mod_cast h) (Real.rpow_nonneg (by norm_num) _)

/-- The loop of `calculateCaffeineLevel` computes the sum of the
per-entry residual amounts, then rounds. -/
lemma calculateCaffeineLevel_eq_sum (entries : List CaffeineEntry) (atMs : ℚ) :
    calculateCaffeineLevel entries atMs =
      round1R ((entries.map (caffeineRemaining atMs)).sum) := by
  have h : ∀ (l : List CaffeineEntry) (a : ℝ),
      (l.foldl (fun total entry =>
        if atMs - entry.timestamp < 0 then total
        else total + (entry.amountMg : ℝ) *
          ((1/2 : ℝ) ^ ((((atMs - entry.timestamp) / (1000 * 60 * 60) /
            CAFFEINE_HALF_LIFE_HOURS : ℚ)) : ℝ))) a) =
      a + (l.map (caffeineRemaining atMs)).sum := by
    intro l
    induction l with
    | nil =>
      intro a
      simp
    | cons x xs ih =>
      intro a
      rw [List.foldl_cons, List.map_cons, List.sum_cons]
      have hx : caffeineRemaining atMs x =
          (if atMs - x.timestamp < 0 then 0
           else (x.amountMg : ℝ) * ((1/2 : ℝ) ^ ((((atMs - x.timestamp) / (1000 * 60 * 60) /
             CAFFEINE_HALF_LIFE_HOURS : ℚ)) : ℝ))) := by
        unfold caffeineRemaining CAFFEINE_HALF_LIFE_HOURS
        refine if_congr sub_neg.symm rfl ?_
        rw [show ((atMs - x.timestamp) / 3600000 / 5 : ℚ) =
          (atMs - x.timestamp) / (1000 * 60 * 60) / 5 from by norm_num]
      by_cases hc : atMs - x.timestamp < 0
      · rw [if_pos hc, ih, hx, if_pos hc, zero_add]
      · rw [if_neg hc, ih, hx, if_neg hc]
        ring
  simp only [calculateCaffeineLevel]
  rw [h entries 0, zero_add]

lemma round1R_nonneg (x : ℝ) (h : 0 ≤ x) : 0 ≤ round1R x := by
  unfold round1R jsRoundR
  apply div_nonneg ?_ (by norm_num)
  have : (0 : ℤ) ≤ ⌊x * 10 + 1/2⌋ := by
    apply Int.le_floor.mpr
    push_cast
    linarith
  exact_mod_cast this

/-- C5: `calculateCaffeineLevel` is the sum over entries of
`amountMg × 0.5 ^ (elapsedHours / 5)` — entries strictly after the
query instant contributing zero — rounded to 1 decimal place; it is
non-negative whenever the amounts are (they are positive by the data
model); and a single 100 mg entry queried exactly 5 hours after intake
yields 50.0. -/
theorem calculateCaffeineLevel_spec :
    (∀ (entries : List CaffeineEntry) (atMs : ℚ),
      calculateCaffeineLevel entries atMs =
        round1R ((entries.map (caffeineRemaining atMs)).sum)) ∧
    (∀ (entries : List CaffeineEntry) (atMs : ℚ),
      (∀ e ∈ entries, 0 ≤ e.amountMg) → 0 ≤ calculateCaffeineLevel entries atMs) ∧
    calculateCaffeineLevel [⟨"c", 0, 100, .coffee, ""⟩] 18000000 = 50 := by
  refine ⟨calculateCaffeineLevel_eq_sum, ?_, ?_⟩
  · intro entries atMs hpos
    rw [calculateCaffeineLevel_eq_sum]
    apply round1R_nonneg
    apply List.sum_nonneg
    intro x hx
    rw [List.mem_map] at hx
    obtain ⟨e, he, rfl⟩ := hx
    exact caffeineRemaining_nonneg atMs e (hpos e he)
  · rw [calculateCaffeineLevel_eq_sum]
    have hrem : caffeineRemaining 18000000 ⟨"c", 0, 100, .coffee, ""⟩ = 50 := by
      unfold caffeineRemaining
      rw [if_neg (by norm_num)]
      have he : ((18000000 - 0) / 3600000 / 5 : ℚ) = 1 := by norm_num
      rw [he]
      push_cast
      rw [Real.rpow_one]
      norm_num
    rw [List.map_singleton, hrem, List.sum_singleton]
    unfold round1R jsRoundR
    rw [show (50 : ℝ) * 10 + 1/2 = 1/2 + (500 : ℤ) from by push_cast; ring,
      Int.floor_add_int]
    norm_num

/-- C5 witness: non-negativity applied to the concrete 100 mg entry. -/
theorem calculateCaffeineLevel_spec_witness :
    0 ≤ calculateCaffeineLevel [⟨"c", 0, 100, .coffee, ""⟩] 18000000 := by
  apply calculateCaffeineLevel_spec.2.1
  rintro e he
  rw [List.mem_singleton] at he
  subst he
  norm_num

lemma round1R_idem (x : ℝ) : round1R (round1R x) = round1R x := by
  unfold round1R jsRoundR
  rw [div_mul_cancel₀ _ (show (10 : ℝ) ≠ 0 from by norm_num)]
  rw [show ((⌊x * 10 + 1/2⌋ : ℤ) : ℝ) + 1/2 = 1/2 + (⌊x * 10 + 1/2⌋ : ℤ) from by ring,
    Int.floor_add_int]
  norm_num

lemma round2_half (i : ℕ) : round2 ((i : ℚ) * (1/2)) = (i : ℚ) / 2 := by
  unfold round2 jsRound
  rw [show ((i : ℚ) * (1/2) * 100) + 1/2 = 1/2 + ((50 * (i : ℤ) : ℤ) : ℚ) from by
    push_cast; ring, Int.floor_add_int]
  have : ⌊(1/2 : ℚ)⌋ = 0 := by norm_num
  rw [this]
  push_cast
  field_simp
  ring

lemma calculateCaffeineTimeline_cons (e : CaffeineEntry) (es : List CaffeineEntry) :
    calculateCaffeineTimeline (e :: es) = (List.range 49).map (fun i =>
      { hour := round2 ((i : ℚ) * (1/2))
        level := round1R (calculateCaffeineLevel (e :: es)
          (hourStartMs (es.foldl (fun acc x => min acc x.timestamp) e.timestamp) +
            (i : ℚ) * 30 * 60 * 1000)) }) := rfl

/-- C7: the empty entry list gives an empty timeline; a non-empty one
gives exactly 49 points, 30 minutes apart, anchored at the start of the
clock-hour of the earliest entry, point `i` carrying hour offset
`i × 0.5` and the residual level at that instant rounded to 1 decimal
place. -/
theorem calculateCaffeineTimeline_spec :
    calculateCaffeineTimeline [] = [] ∧
    (∀ (e : CaffeineEntry) (es : List CaffeineEntry),
      (calculateCaffeineTimeline (e :: es)).length = 49 ∧
      calculateCaffeineTimeline (e :: es) = (List.range 49).map (fun i =>
        { hour := (i : ℚ) / 2
          level := round1R (((e :: es).map (caffeineRemaining
            (hourStartMs (es.foldl (fun acc x => min acc x.timestamp) e.timestamp) +
              (i : ℚ) * 30 * 60 * 1000))).sum) })) := by
  refine ⟨rfl, ?_⟩
  intro e es
  constructor
  · rw [calculateCaffeineTimeline_cons]
    simp
  · rw [calculateCaffeineTimeline_cons]
    apply List.map_congr_left
    intro i hi
    have hhour := round2_half i
    have hlevel : round1R (calculateCaffeineLevel (e :: es)
        (hourStartMs (es.foldl (fun acc x => min acc x.timestamp) e.timestamp) +
          (i : ℚ) * 30 * 60 * 1000)) =
        round1R (((e :: es).map (caffeineRemaining
          (hourStartMs (es.foldl (fun acc x => min acc x.timestamp) e.timestamp) +
            (i : ℚ) * 30 * 60 * 1000))).sum) := by
      rw [calculateCaffeineLevel_eq_sum, round1R_idem]
    rw [TimelinePoint.mk.injEq]
    exact ⟨hhour, hlevel⟩

/-! ## Claim C8: the circular mean of clock times -/

/-- C8: the circular mean of 23:30 and 00:30 is 00:00 (not the naive
arithmetic mean 12:00): the two unit vectors are mirror images across
the midnight axis, so the sine components cancel, `atan2` of the
normalized sums is 0, and 0 minutes renders as `"00:00"`. -/
theorem averageTimeStr_circular : averageTimeStr ["23:30", "00:30"] = "00:00" := by
  have hpi := Real.pi_pos
  have ht1 : timeToMinutes "23:30" = some 1410 := by decide
  have ht2 : timeToMinutes "00:30" = some 30 := by decide
  simp only [averageTimeStr, List.length_cons, List.length_nil, List.any_cons,
    List.any_nil, ht1, ht2, Option.isNone_some, Bool.or_self, Bool.or_false,
    List.map_cons, List.map_nil, List.foldl_cons, List.foldl_nil, Option.getD_some,
    if_false, Nat.cast_ofNat, if_neg (by norm_num : ¬(2 : ℕ) = 0)]
  have hA : ((1410 : ℝ)) / 1440 * (2 * Real.pi) = 2 * Real.pi - Real.pi / 24 := by
    ring
  have hB : ((30 : ℝ)) / 1440 * (2 * Real.pi) = Real.pi / 24 := by
    ring
  rw [hA, hB]
  have hsin : Real.sin (2 * Real.pi - Real.pi / 24) = -Real.sin (Real.pi / 24) := by
    rw [Real.sin_sub, Real.sin_two_pi, Real.cos_two_pi]
    ring
  have hcos : Real.cos (2 * Real.pi - Real.pi / 24) = Real.cos (Real.pi / 24) := by
    rw [Real.cos_sub, Real.sin_two_pi, Real.cos_two_pi]
    ring
  rw [hsin, hcos]
  have hss : (0 : ℝ) + -Real.sin (Real.pi / 24) + Real.sin (Real.pi / 24) = 0 := by
    ring
  have hcc : (0 : ℝ) + Real.cos (Real.pi / 24) + Real.cos (Real.pi / 24) =
      2 * Real.cos (Real.pi / 24) := by
    ring
  rw [hss, hcc]
  have hcpos : 0 < Real.cos (Real.pi / 24) :=
    Real.cos_pos_of_mem_Ioo ⟨by linarith, by linarith⟩
  have hdiv : (2 : ℝ) * Real.cos (Real.pi / 24) / 2 = Real.cos (Real.pi / 24) := by
    ring
  have hlen : (((0 + 1 + 1 : ℕ)) : ℝ) = 2 := by norm_num
  rw [zero_div, hlen, hdiv]
  have hatan : atan2 0 (Real.cos (Real.pi / 24)) = 0 := by
    unfold atan2
    rw [if_pos hcpos, zero_div, Real.arctan_zero]
  rw [hatan]
  rw [if_neg (lt_irrefl 0)]
  rw [zero_div, zero_mul]
  have hround : jsRoundR 0 = 0 := by
    unfold jsRoundR
    norm_num
  rw [hround]
  have hfl : (⌊((0 : ℤ) : ℚ) / 60⌋ : ℤ) = 0 := by
    norm_num
  rw [hfl]
  rw [if_neg (show ¬(false = true) from by decide)]
  decide

end SleepFormula
